import Mathlib

/-!
Verification of the keystoneclient authentication subsystem: a shallow
embedding of `keystoneclient/auth/base.py`, `keystoneclient/shell.py` and the
behavior exercised by `tests/test_client.py`, together with theorems about
plugin resolution, the session retry policy, auth-reference serialization and
the CLI credential gating.
-/

namespace Keystone

/-- Error kinds raised by the embedded code: `exceptions.NoMatchingPlugin`
and `exceptions.CommandError` from the source. The two constructors are
distinct, so a `NoMatchingPlugin` failure is distinguishable from any other
lookup failure. -/
inductive KCError
  | noMatchingPlugin (msg : String)
  | commandError (msg : String)
  deriving DecidableEq, Repr

/-- A plugin class, identified by the entrypoint it was registered under. -/
structure PluginClass where
  clsName : String
  deriving DecidableEq, Repr

/-- The stevedore entry-point registry for namespace
`keystoneclient.auth.plugin`: an association of names to plugin classes,
populated at process start and read-only thereafter. -/
abbrev Registry := List (String × PluginClass)

/-- The external stevedore `DriverManager` lookup with `invoke_on_load=False`:
yields the driver registered under `name`, or nothing (a `RuntimeError` in the
source) when no entry matches. -/
def stevedoreDriver (registry : Registry) (name : String) : Option PluginClass :=
  (registry.find? (fun entry => entry.1 == name)).map (fun entry => entry.2)

/-- `get_plugin_class` from `keystoneclient/auth/base.py` lines 23-40: asks
stevedore for the driver and converts a failed lookup into
`exceptions.NoMatchingPlugin` with the message built by the source. -/
def get_plugin_class (registry : Registry) (name : String) : Except KCError PluginClass :=
  match stevedoreDriver registry name with
  | some driver => Except.ok driver
  | none =>
      Except.error (KCError.noMatchingPlugin
        ("The plugin " ++ name ++ " could not be found"))

namespace BaseAuthPlugin

/-- `BaseAuthPlugin.invalidate` from `keystoneclient/auth/base.py` lines 84-97:
the base default does nothing and returns `False`, signalling that a retry
would not help. Modelled as a state transformer that leaves any plugin state
unchanged. -/
def invalidate {σ : Type} (s : σ) : Bool × σ := (false, s)

end BaseAuthPlugin

/-- Outcome of one downstream call issued with an attached token. -/
inductive Response
  | ok (payload : Nat)
  | unauthorized
  deriving DecidableEq, Repr

/-- Terminal state of one logical request through a Session. -/
inductive SessionResult
  | success (payload : Nat)
  | unauthenticatable
  | authorizationFailure
  deriving DecidableEq, Repr

/-- Observable trace of one logical request: its terminal state, how many
times the plugin's `get_token` and `invalidate` were called, and how many
retries were performed. -/
structure Trace where
  result : SessionResult
  tokenCalls : Nat
  invalidateCalls : Nat
  retries : Nat
  deriving DecidableEq, Repr

/-- Modelled from the spec: the Session orchestrator of spec section 4.3 is
not among the source files (only `BaseAuthPlugin`, which it consumes, is).
One logical request: ask the plugin for a token (`none` is terminal
Unauthenticatable, not retried); issue the call; on an unauthorized response
call `invalidate` and, only when it returns `true`, retry exactly once; a
second unauthorized response, or `invalidate` returning `false`, is terminal
AuthorizationFailure. The plugin is a state transformer pair so pathological
plugin behavior is expressible; the single retry is enforced by the bounded
structure, not by trusting the plugin. -/
def sessionRequest {σ : Type} (getTok : σ → Option String × σ)
    (inval : σ → Bool × σ) (respond : Nat → Response) (s0 : σ) : Trace × σ :=
  match getTok s0 with
  | (none, s1) => (Trace.mk SessionResult.unauthenticatable 1 0 0, s1)
  | (some _, s1) =>
    match respond 0 with
    | Response.ok r => (Trace.mk (SessionResult.success r) 1 0 0, s1)
    | Response.unauthorized =>
      match inval s1 with
      | (false, s2) => (Trace.mk SessionResult.authorizationFailure 1 1 0, s2)
      | (true, s2) =>
        match getTok s2 with
        | (none, s3) => (Trace.mk SessionResult.unauthenticatable 2 1 1, s3)
        | (some _, s3) =>
          match respond 1 with
          | Response.ok r => (Trace.mk (SessionResult.success r) 2 1 1, s3)
          | Response.unauthorized =>
              (Trace.mk SessionResult.authorizationFailure 2 1 1, s3)

/-- A plugin holding at most one cached token, the state every conforming
plugin of spec section 4.2 maintains. -/
structure CachedPlugin where
  cache : Option String
  deriving DecidableEq, Repr

/-- Modelled from the spec: the `get_token` contract of spec section 4.2 (the
concrete password plugin is not among the source files). A still-cached token
is reused without an exchange; otherwise the provider exchange (its outcome
passed as `exchange`) runs and a successful result is cached before the token
is returned. -/
def CachedPlugin.get_token (p : CachedPlugin) (exchange : Option String) :
    Option String × CachedPlugin :=
  match p.cache with
  | some t => (some t, p)
  | none =>
    match exchange with
    | some t => (some t, CachedPlugin.mk (some t))
    | none => (none, p)

/-- Modelled from the spec: the `invalidate` contract of spec section 4.2 for
a caching plugin: clear the cached token and report `true` when state existed,
`false` when there was nothing to invalidate. -/
def CachedPlugin.invalidate (p : CachedPlugin) : Bool × CachedPlugin :=
  match p.cache with
  | some _ => (true, CachedPlugin.mk none)
  | none => (false, p)

/-- A serialized field value: the structured, self-describing persistence
format holds strings and booleans under named keys. -/
inductive FieldVal
  | str (s : String)
  | flag (b : Bool)
  deriving DecidableEq, Repr

/-- Modelled from the spec: the AuthReference of spec section 3 (the
`access`/`v2_0.client` modules are not among the source files; only
`tests/test_client.py` exercises them). Snapshot of a successful exchange:
token value, optional expiration, scoping flag, optional management endpoint
and identity fields. -/
structure AuthReference where
  token : String
  expires : Option String
  «scoped» : Bool
  management_url : Option String
  username : Option String
  tenant_name : Option String
  tenant_id : Option String
  deriving DecidableEq, Repr

/-- One optional field of the serialized record: present fields appear under
their key, absent fields are omitted. -/
def optField (k : String) (v : Option String) : List (String × FieldVal) :=
  match v with
  | some s => [(k, FieldVal.str s)]
  | none => []

/-- Modelled from the spec: serialization of an AuthReference to a record
with named fields (spec section 6), as exercised by
`tests/test_client.py` `test_auth_ref_load` via `json.dumps(cl.auth_ref)`. -/
def serialize (r : AuthReference) : List (String × FieldVal) :=
  [("token", FieldVal.str r.token), ("scoped", FieldVal.flag r.«scoped»)] ++
    optField "expires" r.expires ++
    optField "management_url" r.management_url ++
    optField "username" r.username ++
    optField "tenant_name" r.tenant_name ++
    optField "tenant_id" r.tenant_id

/-- First value stored under key `k` in a serialized record. -/
def lookupField (fields : List (String × FieldVal)) (k : String) : Option FieldVal :=
  match fields with
  | [] => none
  | (k2, v) :: rest => if k2 = k then some v else lookupField rest k

/-- Read an optional string field back from its serialized form. -/
def asStr (v : Option FieldVal) : Option String :=
  match v with
  | some (FieldVal.str s) => some s
  | _ => none

/-- Modelled from the spec: deserialization of a persisted AuthReference
record, reconstructing the reference without the original plugin instance
(spec section 6); fails when the mandatory token or scoping fields are
missing or ill-typed. -/
def deserialize (fields : List (String × FieldVal)) : Option AuthReference :=
  match lookupField fields "token", lookupField fields "scoped" with
  | some (FieldVal.str t), some (FieldVal.flag sc) =>
    some (AuthReference.mk t (asStr (lookupField fields "expires")) sc
      (asStr (lookupField fields "management_url"))
      (asStr (lookupField fields "username"))
      (asStr (lookupField fields "tenant_name"))
      (asStr (lookupField fields "tenant_id")))
  | _, _ => none

/-- The v2.0 identity client as observed by `tests/test_client.py`: its
credential attributes, management endpoint and current auth reference. -/
structure Client where
  username : Option String
  password : Option String
  management_url : Option String
  auth_ref : Option AuthReference
  deriving DecidableEq, Repr

/-- Modelled from the spec: constructing a client purely from a restored
AuthReference (`client.Client(auth_ref=...)` in `test_auth_ref_load`): no
credential options are required or stored, identity and endpoint come from
the reference. -/
def Client.from_auth_ref (r : AuthReference) : Client :=
  Client.mk r.username none r.management_url (some r)

/-- Modelled from the spec: the password-plugin exchange of the scenario in
spec section 8 (the fixture `PROJECT_SCOPED_TOKEN` is not among the source
files): the successful exchange yields a project-scoped reference whose
admin endpoint is `http://admin:35357/v2.0` and whose identity is the
authenticating user. -/
def password_exchange (username _password _auth_url : String) : AuthReference :=
  AuthReference.mk "887665443383838" (some "2999-01-01T00:00:10Z") true
    (some "http://admin:35357/v2.0") (some username)
    (some "exampleproject") (some "3eccebea5d3e4df18cd8ea983b0b4ce7")

/-- Modelled from the spec: authenticated client construction
(`client.Client(username=..., password=..., auth_url=...)` in the test):
performs the password exchange and keeps its reference. -/
def Client.authenticate (username pwd auth_url : String) : Client :=
  Client.mk (some username) (some pwd)
    (password_exchange username pwd auth_url).management_url
    (some (password_exchange username pwd auth_url))

/-- Modelled from the spec: loading a client from a serialized auth blob
alone (`client.Client(auth_ref=json.loads(cache))`). -/
def Client.load (blob : List (String × FieldVal)) : Option Client :=
  (deserialize blob).map Client.from_auth_ref

/-- Python string truthiness: the empty string is falsy, every other string
is truthy. -/
def truthy (s : String) : Bool := !(s == "")

/-- The parsed global CLI arguments of `shell.py` that the gating logic in
`OpenStackIdentityShell.main` reads; `unauthenticated` stands for
`utils.isunauthenticated(args.func)`, the capability flag on the selected
subcommand callback. -/
structure Args where
  debug : Bool
  username : String
  password : String
  tenant_name : String
  os_tenant_id : String
  auth_url : String
  region_name : String
  token : String
  endpoint : String
  unauthenticated : Bool
  deriving DecidableEq, Repr

/-- The credential-presence checks of `OpenStackIdentityShell.main`
(`shell.py` lines 181-193): skipped for unauthenticated commands and when
token and endpoint are both supplied; otherwise username, password and
auth url are demanded in that order, each failure carrying the source's
message. Returns the `CommandError` message, if any. -/
def credentialCheck (args : Args) : Option String :=
  if args.unauthenticated then none
  else if truthy args.token && truthy args.endpoint then none
  else if !(truthy args.username) then
    some "You must provide a username via either --username or env[OS_USERNAME]"
  else if !(truthy args.password) then
    some "You must provide a password via either --password or env[OS_PASSWORD]"
  else if !(truthy args.auth_url) then
    some "You must provide an auth url via either --auth_url or via env[OS_AUTH_URL]"
  else none

/-- The client object `OpenStackIdentityShell.main` constructs: the generic
client for unauthenticated commands, the versioned API client otherwise. -/
inductive ShellClient
  | generic (endpoint : String)
  | api (username tenant_name tenant_id : String) (token endpoint : Option String)
      (password auth_url region_name : String)
  deriving DecidableEq, Repr

/-- Client construction of `OpenStackIdentityShell.main` (`shell.py` lines
195-212): unauthenticated commands get the generic client on the auth url;
otherwise token and endpoint are forwarded only when both are truthy. -/
def buildClient (args : Args) : ShellClient :=
  if args.unauthenticated then ShellClient.generic args.auth_url
  else if truthy args.token && truthy args.endpoint then
    ShellClient.api args.username args.tenant_name args.os_tenant_id
      (some args.token) (some args.endpoint)
      args.password args.auth_url args.region_name
  else
    ShellClient.api args.username args.tenant_name args.os_tenant_id
      none none args.password args.auth_url args.region_name

/-- The credential-gating phase of `OpenStackIdentityShell.main`: a failed
presence check raises `CommandError` before any client is constructed (and
hence before any network interaction); otherwise the client is built. -/
def shellMain (args : Args) : Except KCError ShellClient :=
  match credentialCheck args with
  | some msg => Except.error (KCError.commandError msg)
  | none => Except.ok (buildClient args)

/-- Outcome of dispatching the selected subcommand callback. -/
inductive CallbackResult
  | success
  | unauthorizedErr
  | authorizationFailureErr
  deriving DecidableEq, Repr

/-- `OpenStackIdentityShell.main` including dispatch (`shell.py` lines
214-219): after gating and construction the callback runs, and
`exc.Unauthorized` / `exc.AuthorizationFailure` are translated into
`CommandError` with the source's messages. -/
def shellRun (args : Args) (callback : ShellClient → CallbackResult) :
    Except KCError ShellClient :=
  match shellMain args with
  | Except.error e => Except.error e
  | Except.ok cs =>
    match callback cs with
    | CallbackResult.success => Except.ok cs
    | CallbackResult.unauthorizedErr =>
        Except.error (KCError.commandError "Invalid OpenStack Identity credentials.")
    | CallbackResult.authorizationFailureErr =>
        Except.error (KCError.commandError "Unable to authorize user")

/-- The message an error prints: `str(e)` of the raised exception. -/
def errMessage : KCError → String
  | KCError.noMatchingPlugin m => m
  | KCError.commandError m => m

/-- Observable outcome of the whole process: a normal exit with a status
code and an optional message on the error stream, or a propagated
exception (Python then dumps the stack). -/
inductive ProcessOutcome
  | exited (code : Nat) (stderrMsg : Option String)
  | raised (e : KCError)
  deriving DecidableEq, Repr

/-- The module-level `main` of `shell.py` (lines 253-262): any exception
from the shell is printed to stderr followed by `sys.exit(1)`, unless the
debug flag was set (which set `httplib2.debuglevel` to 1 before the gating
ran), in which case the exception propagates and the stack is dumped. -/
def topLevelMain (args : Args) (callback : ShellClient → CallbackResult) :
    ProcessOutcome :=
  match shellRun args callback with
  | Except.ok _ => ProcessOutcome.exited 0 none
  | Except.error e =>
    if args.debug then ProcessOutcome.raised e
    else ProcessOutcome.exited 1 (some (errMessage e))

/-- A string is a single line when it contains no newline character. -/
def singleLine (s : String) : Bool :=
  s.data.all (fun c => !(c == Char.ofNat 10))

/-- The `env` helper of `shell.py` lines 32-43: scan the variables in order
and return the first value that is set and truthy (non-empty); otherwise
return the supplied default, the empty string when none was given. The
environment is a partial map, `none` for an undefined variable. -/
def env (vars : List String) (environ : String → Option String)
    (deflt : Option String) : String :=
  match vars with
  | [] => deflt.getD ""
  | v :: rest =>
    match environ v with
    | some value => if truthy value then value else env rest environ deflt
    | none => env rest environ deflt

/-- An environment in which every variable set to the empty string is
undefined instead; used to state that `env` treats the two identically. -/
def maskEmpty (environ : String → Option String) : String → Option String :=
  fun w =>
    match environ w with
    | some s => if s = "" then none else some s
    | none => none

/-- Claim C1: for every registered plugin name `get_plugin_class` returns the
plugin class bound to that name, and for every name with no registered entry
it fails with the distinguishable `NoMatchingPlugin` error kind (a dedicated
constructor, not a generic lookup failure); absence of a stevedore driver is
exactly absence of any registry entry for the name. -/
theorem get_plugin_class_spec (registry : Registry) (name : String) :
    (∀ cls, stevedoreDriver registry name = some cls →
        get_plugin_class registry name = Except.ok cls) ∧
    (stevedoreDriver registry name = none →
        get_plugin_class registry name =
          Except.error (KCError.noMatchingPlugin
            ("The plugin " ++ name ++ " could not be found"))) ∧
    (stevedoreDriver registry name = none ↔ ∀ cls, (name, cls) ∉ registry) := by
  refine ⟨?_, ?_, ?_, ?_⟩
  · intro cls h
    simp [get_plugin_class, h]
  · intro h
    simp [get_plugin_class, h]
  · intro h cls hmem
    have h2 : registry.find? (fun entry => entry.1 == name) = none :=
      Option.map_eq_none'.mp h
    rw [List.find?_eq_none] at h2
    have h3 := h2 (name, cls) hmem
    simp at h3
  · intro h
    unfold stevedoreDriver
    rw [Option.map_eq_none', List.find?_eq_none]
    intro x hx hbeq
    rcases x with ⟨n2, c2⟩
    have hn : n2 = name := by simpa using hbeq
    subst hn
    exact h c2 hx

/-- Witness for `get_plugin_class_spec` on a one-entry registry. -/
theorem get_plugin_class_spec_witness :
    get_plugin_class [("password", PluginClass.mk "password")] "password" =
      Except.ok (PluginClass.mk "password") ∧
    get_plugin_class [("password", PluginClass.mk "password")] "badname" =
      Except.error (KCError.noMatchingPlugin
        "The plugin badname could not be found") := by
  constructor
  · exact (get_plugin_class_spec [("password", PluginClass.mk "password")]
      "password").1 (PluginClass.mk "password") (by decide)
  · have h := (get_plugin_class_spec [("password", PluginClass.mk "password")]
      "badname").2.1 (by decide)
    simpa using h

/-- Claim C5: an authenticated command with username set, password empty and
token/endpoint not both supplied fails with the source's `CommandError`
before any client is constructed (so before any network call), and that
message mentions the password. -/
theorem missing_password_check (args : Args)
    (hauth : args.unauthenticated = false)
    (huser : truthy args.username = true)
    (hpw : truthy args.password = false)
    (hte : (truthy args.token && truthy args.endpoint) = false) :
    shellMain args = Except.error (KCError.commandError
      "You must provide a password via either --password or env[OS_PASSWORD]") ∧
    ∃ pre post : String,
      "You must provide a password via either --password or env[OS_PASSWORD]" =
        pre ++ "password" ++ post := by
  constructor
  · simp [shellMain, credentialCheck, hauth, huser, hpw, hte]
  · exact ⟨"You must provide a ",
      " via either --password or env[OS_PASSWORD]", rfl⟩

/-- Witness for `missing_password_check`: username given, empty password. -/
theorem missing_password_check_witness :
    shellMain (Args.mk false "exampleuser" "" "" "" "" "" "" "" false) =
      Except.error (KCError.commandError
        "You must provide a password via either --password or env[OS_PASSWORD]") ∧
    ∃ pre post : String,
      "You must provide a password via either --password or env[OS_PASSWORD]" =
        pre ++ "password" ++ post :=
  missing_password_check (Args.mk false "exampleuser" "" "" "" "" "" "" "" false)
    rfl (by decide) (by decide) (by decide)

/-- Claim C6: a command marked as not requiring authentication bypasses the
credential-presence validation entirely: whatever the username, password and
auth url (in particular all empty), no `CommandError` is raised and the
generic client is constructed on the auth url. -/
theorem unauthenticated_bypass (args : Args)
    (h : args.unauthenticated = true) :
    shellMain args = Except.ok (ShellClient.generic args.auth_url) := by
  simp [shellMain, credentialCheck, buildClient, h]

/-- Witness for `unauthenticated_bypass`: no credentials supplied at all. -/
theorem unauthenticated_bypass_witness :
    shellMain (Args.mk false "" "" "" "" "" "" "" "" true) =
      Except.ok (ShellClient.generic "") :=
  unauthenticated_bypass (Args.mk false "" "" "" "" "" "" "" "" true) rfl

/-- Claim C9: when token and endpoint are both non-empty on an authenticated
command, the username/password/auth-url presence checks are skipped entirely
(no constraint on those fields) and the client is constructed with that token
and endpoint. -/
theorem token_endpoint_bypass (args : Args)
    (hauth : args.unauthenticated = false)
    (htok : truthy args.token = true)
    (hend : truthy args.endpoint = true) :
    shellMain args = Except.ok (ShellClient.api args.username args.tenant_name
      args.os_tenant_id (some args.token) (some args.endpoint)
      args.password args.auth_url args.region_name) := by
  simp [shellMain, credentialCheck, buildClient, hauth, htok, hend]

/-- Witness for `token_endpoint_bypass`: token and endpoint supplied while
username, password and auth url are all empty. -/
theorem token_endpoint_bypass_witness :
    shellMain (Args.mk false "" "" "" "" "" "" "thetoken" "http://admin:35357/v2.0" false) =
      Except.ok (ShellClient.api "" "" ""
        (some "thetoken") (some "http://admin:35357/v2.0") "" "" "") :=
  token_endpoint_bypass
    (Args.mk false "" "" "" "" "" "" "thetoken" "http://admin:35357/v2.0" false)
    rfl (by decide) (by decide)

/-- `env` returns the value of the first variable that is set and non-empty. -/
theorem env_find_some (vars : List String) (environ : String → Option String)
    (deflt : Option String) (v : String)
    (h : vars.find? (fun w => truthy ((environ w).getD "")) = some v) :
    env vars environ deflt = (environ v).getD "" := by
  induction vars with
  | nil => simp [List.find?] at h
  | cons a rest ih =>
    rw [List.find?_cons] at h
    by_cases ha : truthy ((environ a).getD "") = true
    · rw [ha] at h
      simp only [] at h
      injection h with h
      subst h
      unfold env
      rcases henv : environ a with _ | s
      · rw [henv] at ha
        simp [truthy] at ha
      · rw [henv] at ha
        simp only [Option.getD_some] at ha
        simp [ha]
    · have ha2 : truthy ((environ a).getD "") = false := by simpa using ha
      rw [ha2] at h
      simp only [] at h
      have hrec := ih h
      unfold env
      rcases henv : environ a with _ | s
      · exact hrec
      · rw [henv] at ha2
        simp only [Option.getD_some] at ha2
        simp [ha2, hrec]

/-- When no variable is set and non-empty, `env` returns the default. -/
theorem env_find_none (vars : List String) (environ : String → Option String)
    (deflt : Option String)
    (h : vars.find? (fun w => truthy ((environ w).getD "")) = none) :
    env vars environ deflt = deflt.getD "" := by
  induction vars with
  | nil => rfl
  | cons a rest ih =>
    rw [List.find?_cons] at h
    by_cases ha : truthy ((environ a).getD "") = true
    · rw [ha] at h
      simp at h
    · have ha2 : truthy ((environ a).getD "") = false := by simpa using ha
      rw [ha2] at h
      simp only [] at h
      have hrec := ih h
      unfold env
      rcases henv : environ a with _ | s
      · exact hrec
      · rw [henv] at ha2
        simp only [Option.getD_some] at ha2
        simp [ha2, hrec]

/-- `env` cannot tell an empty-valued variable from an undefined one. -/
theorem env_mask (vars : List String) (environ : String → Option String)
    (deflt : Option String) :
    env vars (maskEmpty environ) deflt = env vars environ deflt := by
  induction vars with
  | nil => rfl
  | cons a rest ih =>
    unfold env
    rcases henv : environ a with _ | s
    · simp [maskEmpty, henv, ih]
    · by_cases hs : s = ""
      · subst hs
        simp [maskEmpty, henv, truthy, ih]
      · have ht : truthy s = true := by simp [truthy, hs]
        simp [maskEmpty, henv, hs, ht, ih]

/-- Claim C10: the `env` helper returns the value of the first listed
environment variable that is set and non-empty, otherwise the supplied
default (the empty string when none was given), and a variable set to the
empty string behaves exactly as an undefined one. -/
theorem env_spec (vars : List String) (environ : String → Option String)
    (deflt : Option String) :
    (∀ v, vars.find? (fun w => truthy ((environ w).getD "")) = some v →
        env vars environ deflt = (environ v).getD "") ∧
    (vars.find? (fun w => truthy ((environ w).getD "")) = none →
        env vars environ deflt = deflt.getD "") ∧
    env vars (maskEmpty environ) deflt = env vars environ deflt :=
  ⟨fun v h => env_find_some vars environ deflt v h,
   fun h => env_find_none vars environ deflt h,
   env_mask vars environ deflt⟩

/-- Witness for `env_spec`: the first variable is set but empty, so the
second variable's value is returned; an empty scan yields the empty string;
masking an all-empty environment changes nothing. -/
theorem env_spec_witness :
    env ["OS_USERNAME", "OS_PASSWORD"]
      (fun w => if w = "OS_USERNAME" then some ""
        else if w = "OS_PASSWORD" then some "secret" else none) none = "secret" ∧
    env [] (fun _ => none) none = "" ∧
    env ["OS_AUTH_URL"] (maskEmpty (fun _ => some "")) (some "fallback") =
      env ["OS_AUTH_URL"] (fun _ => some "") (some "fallback") := by
  refine ⟨?_, ?_, ?_⟩
  · have h := (env_spec ["OS_USERNAME", "OS_PASSWORD"]
      (fun w => if w = "OS_USERNAME" then some ""
        else if w = "OS_PASSWORD" then some "secret" else none) none).1
      "OS_PASSWORD" (by decide)
    simpa using h
  · exact (env_spec [] (fun _ => none) none).2.1 rfl
  · exact (env_spec ["OS_AUTH_URL"] (fun _ => some "") (some "fallback")).2.2

/-- Claim C2: against a conforming cached plugin whose exchange always
succeeds while every downstream response reports unauthorized, the Session
calls invalidate exactly once, retries exactly once, and terminates with
AuthorizationFailure; and no plugin behavior whatsoever can force more than
one retry, more than one invalidate call, or more than two token requests,
so the request never loops. -/
theorem session_single_retry {σ : Type} (anyTok : σ → Option String × σ)
    (anyInval : σ → Bool × σ) (anyResp : Nat → Response) (anyState : σ)
    (p : CachedPlugin) (t : String) (respond : Nat → Response)
    (hresp : ∀ n, respond n = Response.unauthorized) :
    (sessionRequest (fun q => CachedPlugin.get_token q (some t))
        CachedPlugin.invalidate respond p).1 =
      Trace.mk SessionResult.authorizationFailure 2 1 1 ∧
    ((sessionRequest anyTok anyInval anyResp anyState).1.retries ≤ 1 ∧
      (sessionRequest anyTok anyInval anyResp anyState).1.invalidateCalls ≤ 1 ∧
      (sessionRequest anyTok anyInval anyResp anyState).1.tokenCalls ≤ 2) := by
  constructor
  · rcases p with ⟨_ | c⟩ <;>
      simp [sessionRequest, CachedPlugin.get_token, CachedPlugin.invalidate, hresp]
  · refine ⟨?_, ?_, ?_⟩ <;>
      · unfold sessionRequest
        repeat' split
        all_goals simp

/-- Witness for `session_single_retry`: empty starting cache, constant
exchange, every response unauthorized. -/
theorem session_single_retry_witness :
    (sessionRequest (fun q => CachedPlugin.get_token q (some "tok"))
        CachedPlugin.invalidate (fun _ => Response.unauthorized)
        (CachedPlugin.mk none)).1 =
      Trace.mk SessionResult.authorizationFailure 2 1 1 ∧
    ((sessionRequest (fun q => CachedPlugin.get_token q (some "tok"))
        CachedPlugin.invalidate (fun _ => Response.unauthorized)
        (CachedPlugin.mk none)).1.retries ≤ 1 ∧
      (sessionRequest (fun q => CachedPlugin.get_token q (some "tok"))
        CachedPlugin.invalidate (fun _ => Response.unauthorized)
        (CachedPlugin.mk none)).1.invalidateCalls ≤ 1 ∧
      (sessionRequest (fun q => CachedPlugin.get_token q (some "tok"))
        CachedPlugin.invalidate (fun _ => Response.unauthorized)
        (CachedPlugin.mk none)).1.tokenCalls ≤ 2) :=
  session_single_retry (fun q => CachedPlugin.get_token q (some "tok"))
    CachedPlugin.invalidate (fun _ => Response.unauthorized) (CachedPlugin.mk none)
    (CachedPlugin.mk none) "tok" (fun _ => Response.unauthorized) (fun _ => rfl)

/-- Claim C7: a plugin holding no cached authentication state returns false
from invalidate — the base default `BaseAuthPlugin.invalidate` on any state,
and a caching plugin with an empty cache — and a Session whose plugin uses
the base default invalidate never retries. -/
theorem invalidate_without_state {σ : Type} (getTok : σ → Option String × σ)
    (respond : Nat → Response) (s : σ) :
    (BaseAuthPlugin.invalidate s).1 = false ∧
    (CachedPlugin.invalidate (CachedPlugin.mk none)).1 = false ∧
    (sessionRequest getTok (fun q => BaseAuthPlugin.invalidate q)
        respond s).1.retries = 0 := by
  refine ⟨rfl, rfl, ?_⟩
  unfold sessionRequest
  rcases getTok s with ⟨_ | t1, s1⟩
  · simp
  · rcases respond 0 with r | _
    · simp
    · simp [BaseAuthPlugin.invalidate]

/-- Witness for `invalidate_without_state`: a caching plugin that always
obtains a token, against an always-unauthorized service. -/
theorem invalidate_without_state_witness :
    (BaseAuthPlugin.invalidate (CachedPlugin.mk none)).1 = false ∧
    (CachedPlugin.invalidate (CachedPlugin.mk none)).1 = false ∧
    (sessionRequest (fun q => CachedPlugin.get_token q (some "tok"))
        (fun q => BaseAuthPlugin.invalidate q)
        (fun _ => Response.unauthorized) (CachedPlugin.mk none)).1.retries = 0 :=
  invalidate_without_state (fun q => CachedPlugin.get_token q (some "tok"))
    (fun _ => Response.unauthorized) (CachedPlugin.mk none)

/-- Claim C3: deserializing the serialized form of any AuthReference
reproduces every field that was present equal to the original, and the
client constructed purely from that deserialized reference requires no
credential options: it stores no password and holds the full reference. -/
theorem auth_ref_round_trip (r : AuthReference) :
    deserialize (serialize r) = some r ∧
    (Client.from_auth_ref r).password = none ∧
    (Client.from_auth_ref r).auth_ref = some r := by
  refine ⟨?_, rfl, rfl⟩
  rcases r with ⟨tok, exp, sc, mg, un, tn, ti⟩
  cases exp <;> cases mg <;> cases un <;> cases tn <;> cases ti <;> rfl

/-- Witness for `auth_ref_round_trip` on a reference with some fields
present and some absent. -/
theorem auth_ref_round_trip_witness :
    deserialize (serialize (AuthReference.mk "tok" none true none
        (some "exampleuser") none none)) =
      some (AuthReference.mk "tok" none true none (some "exampleuser") none none) ∧
    (Client.from_auth_ref (AuthReference.mk "tok" none true none
        (some "exampleuser") none none)).password = none ∧
    (Client.from_auth_ref (AuthReference.mk "tok" none true none
        (some "exampleuser") none none)).auth_ref =
      some (AuthReference.mk "tok" none true none (some "exampleuser") none none) :=
  auth_ref_round_trip (AuthReference.mk "tok" none true none
    (some "exampleuser") none none)

/-- Claim C4: with the password plugin and options username `exampleuser`,
password `password`, auth url `http://somewhere/`, the successful exchange
yields a scoped AuthReference, and a second client built from the serialized
reference alone is scoped, keeps username `exampleuser`, has no password and
uses management endpoint `http://admin:35357/v2.0`. -/
theorem password_scenario :
    (Client.authenticate "exampleuser" "password" "http://somewhere/").auth_ref.map
        AuthReference.«scoped» = some true ∧
    Client.load (serialize (password_exchange "exampleuser" "password"
        "http://somewhere/")) =
      some (Client.mk (some "exampleuser") none (some "http://admin:35357/v2.0")
        (some (password_exchange "exampleuser" "password" "http://somewhere/"))) ∧
    (password_exchange "exampleuser" "password" "http://somewhere/").«scoped» = true := by
  exact ⟨rfl, rfl, rfl⟩

/-- Any message produced by the credential-presence checks is one of the
three fixed messages of `shell.py` lines 181-193. -/
theorem credentialCheck_messages (args : Args) (m : String)
    (h : credentialCheck args = some m) :
    m = "You must provide a username via either --username or env[OS_USERNAME]" ∨
    m = "You must provide a password via either --password or env[OS_PASSWORD]" ∨
    m = "You must provide an auth url via either --auth_url or via env[OS_AUTH_URL]" := by
  unfold credentialCheck at h
  split at h
  · exact Option.noConfusion h
  · split at h
    · exact Option.noConfusion h
    · split at h
      · injection h with h
        exact Or.inl h.symm
      · split at h
        · injection h with h
          exact Or.inr (Or.inl h.symm)
        · split at h
          · injection h with h
            exact Or.inr (Or.inr h.symm)
          · exact Option.noConfusion h

/-- Any error surfaced by a shell run is a `CommandError` carrying one of
the five fixed messages of `shell.py`. -/
theorem shellRun_error_cases (args : Args) (callback : ShellClient → CallbackResult)
    (e : KCError) (herr : shellRun args callback = Except.error e) :
    ∃ m, e = KCError.commandError m ∧
      (m = "You must provide a username via either --username or env[OS_USERNAME]" ∨
       m = "You must provide a password via either --password or env[OS_PASSWORD]" ∨
       m = "You must provide an auth url via either --auth_url or via env[OS_AUTH_URL]" ∨
       m = "Invalid OpenStack Identity credentials." ∨
       m = "Unable to authorize user") := by
  unfold shellRun at herr
  rcases hsm : shellMain args with e2 | cs
  · rw [hsm] at herr
    injection herr with herr
    subst herr
    unfold shellMain at hsm
    rcases hcc : credentialCheck args with _ | m
    · rw [hcc] at hsm
      exact Except.noConfusion hsm
    · rw [hcc] at hsm
      injection hsm with hsm
      rcases credentialCheck_messages args m hcc with h | h | h
      · exact ⟨m, hsm.symm, Or.inl h⟩
      · exact ⟨m, hsm.symm, Or.inr (Or.inl h)⟩
      · exact ⟨m, hsm.symm, Or.inr (Or.inr (Or.inl h))⟩
  · rw [hsm] at herr
    simp only [] at herr
    rcases hcb : callback cs with _ | _ | _ <;> rw [hcb] at herr <;>
      simp only [] at herr
    · exact Except.noConfusion herr
    · injection herr with herr
      exact ⟨"Invalid OpenStack Identity credentials.", herr.symm,
        Or.inr (Or.inr (Or.inr (Or.inl rfl)))⟩
    · injection herr with herr
      exact ⟨"Unable to authorize user", herr.symm,
        Or.inr (Or.inr (Or.inr (Or.inr rfl)))⟩

/-- Claim C8: every credential-presence validation failure and
authentication failure surfaced by the CLI exits the process with status 1
(non-zero) and a single-line message on the error stream (not a stack
trace); with the debug flag set the exception itself propagates instead. -/
theorem cli_error_contract (args : Args) (callback : ShellClient → CallbackResult)
    (e : KCError) (herr : shellRun args callback = Except.error e) :
    (args.debug = false →
        topLevelMain args callback = ProcessOutcome.exited 1 (some (errMessage e)) ∧
        singleLine (errMessage e) = true) ∧
    (args.debug = true → topLevelMain args callback = ProcessOutcome.raised e) := by
  have hmsg : singleLine (errMessage e) = true := by
    rcases shellRun_error_cases args callback e herr with ⟨m, he, hm⟩
    subst he
    rcases hm with h | h | h | h | h <;> subst h <;> decide
  constructor
  · intro hdbg
    refine ⟨?_, hmsg⟩
    unfold topLevelMain
    rw [herr, hdbg]
    simp
  · intro hdbg
    unfold topLevelMain
    rw [herr, hdbg]
    simp

/-- Witness for `cli_error_contract`: missing username with debug off exits
with status 1 and the single-line source message. -/
theorem cli_error_contract_witness :
    topLevelMain (Args.mk false "" "" "" "" "" "" "" "" false)
        (fun _ => CallbackResult.success) =
      ProcessOutcome.exited 1
        (some "You must provide a username via either --username or env[OS_USERNAME]") ∧
    singleLine "You must provide a username via either --username or env[OS_USERNAME]" = true :=
  (cli_error_contract (Args.mk false "" "" "" "" "" "" "" "" false)
    (fun _ => CallbackResult.success)
    (KCError.commandError
      "You must provide a username via either --username or env[OS_USERNAME]")
    rfl).1 rfl

end Keystone
